import Mathlib

/-!
Shallow embedding of the client-side structured logging framework of the
`personify` repository (`frontend/lib/logger/{types,core,context}.ts`,
plus the transports and performance files) together with theorems that
settle the frozen claims about it.

Conventions of the embedding:
* JavaScript runtime values are modelled by the inductive `JSValue`
  (numbers as rationals, which is the standard non-float embedding).
* Objects used as log contexts are association lists in key-insertion
  order; JS object-spread (`{...a, ...b}`) is `jsSpread`.
* Code that can throw is modelled in `Except`; `JSON.stringify`'s
  exceptions on BigInt values are modelled faithfully.
* Wall-clock readings (`performance.now()`, `Date.now()`,
  `new Date().toISOString()`) and environment flags are passed as
  explicit parameters.
-/

set_option linter.unusedVariables false

/-- Log severity levels of the logger (`types.ts`): `debug < info < warn < error`. -/
inductive LogLevel where
  | debug
  | info
  | warn
  | error
deriving DecidableEq, Repr

/-- Numeric rank of each level, from the `LOG_LEVELS` record in `core.ts`
(also duplicated in the transports file). -/
def LOG_LEVELS : LogLevel → Nat
  | .debug => 0
  | .info => 1
  | .warn => 2
  | .error => 3

/-- JavaScript runtime values, as far as the logger inspects them.
`err` models instances of `Error` (with `name`, `message`, optional
`stack` and `cause`); `obj` models any other non-null object. -/
inductive JSValue where
  | undef
  | nullV
  | bool (b : Bool)
  | num (q : ℚ)
  | str (s : String)
  | bigint (i : ℤ)
  | obj (fields : List (String × JSValue))
  | err (name message : String) (stack : Option String) (cause : Option JSValue)

/-- JavaScript truthiness of a value. -/
def jsTruthy : JSValue → Bool
  | .undef => false
  | .nullV => false
  | .bool b => b
  | .num q => q ≠ 0
  | .str s => s ≠ ""
  | .bigint i => i ≠ 0
  | .obj _ => true
  | .err _ _ _ _ => true

/-- A JS object used as a log context: an association list in key order. -/
abbrev LogContext := List (String × JSValue)

/-- Property lookup on an object: the first entry with the given key. -/
def ctxLookup (c : LogContext) (k : String) : Option JSValue :=
  (c.find? (fun p => p.1 == k)).map (fun p => p.2)

/-- JS object spread `{...a, ...b}`: keys of `a` in order (values
overridden by `b` where present), then the keys of `b` not in `a`. -/
def jsSpread (a b : LogContext) : LogContext :=
  a.map (fun p =>
    match ctxLookup b p.1 with
    | some v => (p.1, v)
    | none => p)
  ++ b.filter (fun p => (ctxLookup a p.1).isNone)

/-- Rendering of a JS number for string/JSON output (integral rationals
render as integers, matching JS output on the integral values the
logger produces). -/
def numRender (q : ℚ) : String :=
  if q.den = 1 then toString q.num else toString q

/-- Minimal JSON escaping of a character sequence (backslash and
double quote). -/
def jsonEscapeChars : List Char → String
  | [] => ""
  | c :: cs =>
      (if c = '\\' then "\\\\"
       else if c = '"' then "\\\"" else String.singleton c) ++ jsonEscapeChars cs

/-- Minimal JSON string escaping (backslash and double quote). -/
def jsonEscape (s : String) : String :=
  jsonEscapeChars s.data

/-- `String(v)` coercion in JS for the values it can be applied to. -/
def jsToString : JSValue → String
  | .undef => "undefined"
  | .nullV => "null"
  | .bool b => if b then "true" else "false"
  | .num q => numRender q
  | .str s => s
  | .bigint i => toString i
  | .obj _ => "[object Object]"
  | .err n m _ _ => n ++ ": " ++ m

mutual

/-- `JSON.stringify` on a value occurring inside an object: `.ok none`
means the property is omitted (`undefined`), `.error ()` models the
`TypeError` that `JSON.stringify` raises on BigInt values. -/
def stringifyVal : JSValue → Except Unit (Option String)
  | .undef => .ok none
  | .nullV => .ok (some "null")
  | .bool b => .ok (some (if b then "true" else "false"))
  | .num q => .ok (some (numRender q))
  | .str s => .ok (some ("\"" ++ jsonEscape s ++ "\""))
  | .bigint _ => .error ()
  | .obj fs => do
      let parts ← stringifyFields fs
      .ok (some ("\x7b" ++ String.intercalate "," parts ++ "\x7d"))
  | .err _ _ _ _ => .ok (some "\x7b\x7d")

/-- `JSON.stringify` of the fields of an object, omitting
`undefined`-valued properties, propagating BigInt failures. -/
def stringifyFields : List (String × JSValue) → Except Unit (List String)
  | [] => .ok []
  | (k, v) :: rest => do
      let r ← stringifyVal v
      let rs ← stringifyFields rest
      match r with
      | none => .ok rs
      | some s => .ok (("\"" ++ jsonEscape k ++ "\"" ++ ":" ++ s) :: rs)

end

/-- `JSON.stringify(v)` at top level for a non-null object, as used by
`Logger.formatError`. -/
def jsonStringify (v : JSValue) : Except Unit String := do
  let r ← stringifyVal v
  .ok (r.getD "")

/-- Normalized error descriptor (`ErrorDetails` in `types.ts`); the
`code` field is never produced by `formatError` and is omitted. -/
structure ErrorDetails where
  name : String
  message : String
  stack : Option String := none
  cause : Option JSValue := none

/-- `Logger.formatError` (`core.ts` lines 58–79): a native `Error` keeps
its fields; any other non-null object is `JSON.stringify`ed (which can
throw, e.g. on BigInt-valued properties — modelled by `Except`); any
other value is coerced with `String(...)`. -/
def formatError : JSValue → Except Unit ErrorDetails
  | .err n m st c => .ok { name := n, message := m, stack := st, cause := c }
  | .obj fs => do
      let s ← jsonStringify (.obj fs)
      .ok { name := "Error", message := s }
  | v => .ok { name := "Error", message := jsToString v }

/-- Values on which `formatError` takes its final `String(error)`
branch: not an `Error` instance and not a non-null object. -/
def stringCoerced : JSValue → Bool
  | .obj _ => false
  | .err _ _ _ _ => false
  | _ => true

/-- Truthiness of an optional value (a possibly-absent object property). -/
def truthyOpt : Option JSValue → Bool
  | some v => jsTruthy v
  | none => false

/-- Truthiness of an optional string (`s && ...` where `s` may be
`undefined` or the falsy empty string). -/
def truthyStr : Option String → Bool
  | some s => s ≠ ""
  | none => false

/-- State of the `LoggerContext` singleton registry (`context.ts`):
ambient key/value context, the active request id, and the session id
generated once at construction (`nanoid(10)`, always a non-empty
string). -/
structure RegistryState where
  context : LogContext
  requestId : Option String
  sessionId : Option String

/-- The `LoggerContext` private constructor: empty context, no request
id, session id freshly generated (`sid` stands for the `nanoid(10)`
result, a 10-character — hence non-empty — string). -/
def LoggerContext.mkRegistry (sid : String) : RegistryState :=
  { context := [], requestId := none, sessionId := some sid }

/-- `LoggerContext.getAllContext` (`context.ts` lines 63–69):
`{...this.context, ...(this.requestId && {requestId}), ...(this.sessionId && {sessionId})}`. -/
def LoggerContext.getAllContext (r : RegistryState) : LogContext :=
  jsSpread
    (jsSpread r.context
      (if truthyStr r.requestId then [("requestId", .str (r.requestId.getD ""))] else []))
    (if truthyStr r.sessionId then [("sessionId", .str (r.sessionId.getD ""))] else [])

/-- Performance metrics record (`types.ts`): duration and memory are
optional, timestamp is `Date.now()`. -/
structure PerformanceMetrics where
  duration : Option ℚ := none
  memory : Option ℚ := none
  timestamp : ℚ

/-- One structured log entry (`LogEntry` in `types.ts`). Optional
fields are only materialized when the corresponding property is set. -/
structure LogEntry where
  timestamp : String
  level : LogLevel
  message : String
  context : Option LogContext := none
  error : Option ErrorDetails := none
  performance : Option PerformanceMetrics := none
  requestId : Option JSValue := none
  userId : Option JSValue := none
  sessionId : Option JSValue := none

/-- `Logger.createLogEntry` (`core.ts` lines 81–122). `globalContext`
is the logger's static context, `r` the ambient registry state,
`tstamp` the `new Date().toISOString()` reading. `formatError` can
throw (propagated — the source has no try/catch here), hence `Except`. -/
def Logger.createLogEntry (globalContext : LogContext) (r : RegistryState)
    (level : LogLevel) (message : String) (context : Option LogContext)
    (error : Option JSValue) (performance : Option PerformanceMetrics)
    (tstamp : String) : Except Unit LogEntry :=
  match (match error with
         | some e => if jsTruthy e then (formatError e).map some else Except.ok none
         | none => Except.ok none : Except Unit (Option ErrorDetails)) with
  | .error u => .error u
  | .ok errDetails =>
      .ok
        { timestamp := tstamp
          level := level
          message := message
          context :=
            if (jsSpread (jsSpread globalContext (LoggerContext.getAllContext r))
                  (context.getD [])).isEmpty
            then none
            else some (jsSpread (jsSpread globalContext (LoggerContext.getAllContext r))
                  (context.getD []))
          error := errDetails
          performance := performance
          requestId :=
            if truthyOpt (ctxLookup (LoggerContext.getAllContext r) "requestId")
            then ctxLookup (LoggerContext.getAllContext r) "requestId"
            else none
          userId :=
            if truthyOpt (ctxLookup (LoggerContext.getAllContext r) "userId")
            then ctxLookup (LoggerContext.getAllContext r) "userId"
            else none
          sessionId :=
            if truthyOpt (ctxLookup (LoggerContext.getAllContext r) "sessionId")
            then ctxLookup (LoggerContext.getAllContext r) "sessionId"
            else none }

/-- A transport as the core logger sees it (`LoggerTransport` in
`types.ts`). `threshold = some m` models a defined `shouldLog` of the
shape found in the source (`ConsoleTransport.shouldLog`, a rank
comparison against a minimum level); `none` models an undefined
`shouldLog`. `logFails` models whether this transport's `log` throws. -/
structure Transport where
  name : String
  threshold : Option LogLevel
  logFails : Bool

/-- `ConsoleTransport` (transports file): named `console`, filtering by
its own minimum level; its `log` writes to the console and is modelled
as non-throwing. -/
def mkConsoleTransport (minLevel : LogLevel) : Transport :=
  { name := "console", threshold := some minLevel, logFails := false }

/-- The guard `!transport.shouldLog || transport.shouldLog(level)` in
`Logger.log`, with `ConsoleTransport.shouldLog`'s rank comparison. -/
def transportPasses (t : Transport) (level : LogLevel) : Bool :=
  match t.threshold with
  | none => true
  | some m => LOG_LEVELS m ≤ LOG_LEVELS level

/-- Observable outcome of one fan-out over the transport list:
`calls` are the transports whose `log` was invoked, in order;
`fallbacks` are the `console.error("Transport ... failed")` reports
emitted by the catch block for throwing transports. -/
structure DispatchResult where
  calls : List String
  fallbacks : List String
deriving DecidableEq, Repr

/-- The transport loop of `Logger.log` (`core.ts` lines 135–143): each
transport runs inside its own try/catch, so a throwing `log` is caught
(recorded as a fallback report) and the loop continues. -/
def runTransports (ts : List Transport) (level : LogLevel) (entry : LogEntry) :
    DispatchResult :=
  ts.foldl
    (fun r t =>
      if transportPasses t level then
        if t.logFails then
          { calls := r.calls ++ [t.name], fallbacks := r.fallbacks ++ [t.name] }
        else
          { calls := r.calls ++ [t.name], fallbacks := r.fallbacks }
      else r)
    { calls := [], fallbacks := [] }

/-- `Logger.log` (`core.ts` lines 124–144): level filter via
`Logger.shouldLog` (rank comparison with the configured `minLevel`),
entry construction, then fan-out. Exceptions from entry construction
propagate (no try/catch around `createLogEntry` in the source). -/
def Logger.logModel (minLevel : LogLevel) (globalContext : LogContext)
    (r : RegistryState) (ts : List Transport) (level : LogLevel)
    (message : String) (context : Option LogContext) (error : Option JSValue)
    (performance : Option PerformanceMetrics) (tstamp : String) :
    Except Unit DispatchResult :=
  if LOG_LEVELS minLevel ≤ LOG_LEVELS level then
    match Logger.createLogEntry globalContext r level message context error performance tstamp with
    | .error e => .error e
    | .ok entry => .ok (runTransports ts level entry)
  else .ok { calls := [], fallbacks := [] }

/-- The entry of one `debug`/`info`/`warn`/`error` call reaches the
given transport: the dispatch succeeded and the transport's `log` was
invoked with the entry. -/
def Reaches (minLevel : LogLevel) (globalContext : LogContext) (r : RegistryState)
    (t : Transport) (level : LogLevel) (message : String)
    (context : Option LogContext) (performance : Option PerformanceMetrics)
    (tstamp : String) : Prop :=
  ∃ res, Logger.logModel minLevel globalContext r [t] level message context none
      performance tstamp = .ok res ∧ t.name ∈ res.calls

/-- Two-decimal rounding `Math.round(x * 100) / 100` from the
performance file (`Math.round` is `⌊x + 1/2⌋`, which is Mathlib's
`round`). -/
def round2 (q : ℚ) : ℚ := (round (q * 100) : ℚ) / 100

/-- State of a `Performance` tracker (performance file): the optional
start instant and the named marks. -/
structure PerfState where
  startTime : Option ℚ
  marks : List (String × ℚ)

/-- `this.marks.get(name)` on the tracker's mark map. -/
def marksGet (st : PerfState) (name : String) : Option ℚ :=
  (st.marks.find? (fun p => p.1 == name)).map (fun p => p.2)

/-- `Performance.end` (performance file lines 15–24): duration is
`this.startTime ? endTime - this.startTime : 0` (note JS truthiness:
a recorded start of exactly `0` also falls to the `0` branch), rounded
to two decimals; `now` is the `performance.now()` reading, `mem` the
best-effort memory figure, `dnow` the `Date.now()` reading. -/
def perfEnd (st : PerfState) (now : ℚ) (mem : Option ℚ) (dnow : ℚ) :
    PerformanceMetrics :=
  let duration :=
    match st.startTime with
    | some s => if s ≠ 0 then now - s else 0
    | none => 0
  { duration := some (round2 duration), memory := mem, timestamp := dnow }

/-- `Performance.measure` (performance file lines 30–40):
`const start = startMark ? this.marks.get(startMark) : this.startTime`
(JS truthiness again: an empty-string `startMark` falls back to
`this.startTime`), error on a missing start, `(end ?? 0) - start`
rounded. -/
def perfMeasure (st : PerfState) (now : ℚ) (startMark endMark : Option String) :
    Except String ℚ :=
  let start : Option ℚ :=
    if truthyStr startMark then marksGet st (startMark.getD "") else st.startTime
  let endv : Option ℚ :=
    if truthyStr endMark then marksGet st (endMark.getD "") else some now
  match start with
  | none =>
      .error ("Start mark \"" ++ (match startMark with | some s => s | none => "undefined")
        ++ "\" not found")
  | some s => .ok (round2 (endv.getD 0 - s))

/-- One internal `Logger.log` invocation recorded by the track
wrappers: the level, message, error argument, context argument and
performance-metrics argument of the call. -/
structure TrackEvent where
  level : LogLevel
  message : String
  error : Option JSValue := none
  context : Option LogContext := none
  metrics : Option PerformanceMetrics := none

/-- A `PerformanceMetrics` record spread into a context object
(`{...context, ...metrics}` in the track wrappers); property order
`duration`, `memory`, `timestamp` as in the record. -/
def metricsToContext (m : PerformanceMetrics) : LogContext :=
  [("duration", m.duration.elim JSValue.undef JSValue.num),
   ("memory", m.memory.elim JSValue.undef JSValue.num),
   ("timestamp", JSValue.num m.timestamp)]

/-- `Logger.track` (`core.ts` lines 194–210). `outcome` is what the
wrapped `fn` does (`.ok a` returns `a`, `.error e` throws `e`), `t0`
and `t1` the `performance.now()` readings at `perf.start()` and
`perf.end()`. The result pairs what the wrapper returns/throws with
the sequence of internal log calls it makes. -/
def Logger.trackModel {α : Type} (operation : String) (outcome : Except JSValue α)
    (context : Option LogContext) (enablePerformance : Bool)
    (t0 t1 : ℚ) (mem : Option ℚ) (dnow : ℚ) :
    Except JSValue α × List TrackEvent :=
  let startEvt : TrackEvent :=
    { level := .debug, message := "Starting: " ++ operation, context := context }
  match outcome with
  | .ok result =>
      let metrics := perfEnd { startTime := some t0, marks := [] } t1 mem dnow
      (.ok result,
        [startEvt] ++
          (if enablePerformance then
            [{ level := .debug, message := "Completed: " ++ operation,
               context := context, metrics := some metrics }]
          else []))
  | .error e =>
      let metrics := perfEnd { startTime := some t0, marks := [] } t1 mem dnow
      (.error e,
        [startEvt,
         { level := .error, message := "Failed: " ++ operation, error := some e,
           context := some (jsSpread (context.getD []) (metricsToContext metrics)) }])

/-- `Logger.trackAsync` (`core.ts` lines 173–189): same body as
`Logger.track` with the `await` collapsed — `outcome` is the settled
result of the wrapped promise. -/
def Logger.trackAsyncModel {α : Type} (operation : String) (outcome : Except JSValue α)
    (context : Option LogContext) (enablePerformance : Bool)
    (t0 t1 : ℚ) (mem : Option ℚ) (dnow : ℚ) :
    Except JSValue α × List TrackEvent :=
  let startEvt : TrackEvent :=
    { level := .debug, message := "Starting: " ++ operation, context := context }
  match outcome with
  | .ok result =>
      let metrics := perfEnd { startTime := some t0, marks := [] } t1 mem dnow
      (.ok result,
        [startEvt] ++
          (if enablePerformance then
            [{ level := .debug, message := "Completed: " ++ operation,
               context := context, metrics := some metrics }]
          else []))
  | .error e =>
      let metrics := perfEnd { startTime := some t0, marks := [] } t1 mem dnow
      (.error e,
        [startEvt,
         { level := .error, message := "Failed: " ++ operation, error := some e,
           context := some (jsSpread (context.getD []) (metricsToContext metrics)) }])

/-- State of a `JsonTransport` (transports file): the buffer, the
configured sizes, whether a flush callback was supplied and whether it
rejects, plus the observable record of callback invocations and of
`console.error("Failed to flush logs")` reports from the catch block. -/
structure JsonTransport where
  buffer : List LogEntry
  flushInterval : Nat
  maxBufferSize : Nat
  hasFlushCallback : Bool
  flushCallbackRejects : Bool
  flushCallbackCalls : List (List LogEntry)
  flushErrorsLogged : Nat

/-- `options?.x || default` on a number: `0` is falsy, so an explicit
`0` also picks the default. -/
def numOr (o : Option Nat) (d : Nat) : Nat :=
  match o with
  | some n => if n ≠ 0 then n else d
  | none => d

/-- The `JsonTransport` constructor: empty buffer,
`flushInterval || 5000`, `maxBufferSize || 100`. The periodic timer is
outside the model (the claims fix "no timer firing"). -/
def mkJsonTransport (flushInterval maxBufferSize : Option Nat)
    (hasFlushCallback flushCallbackRejects : Bool) : JsonTransport :=
  { buffer := [], flushInterval := numOr flushInterval 5000,
    maxBufferSize := numOr maxBufferSize 100,
    hasFlushCallback := hasFlushCallback,
    flushCallbackRejects := flushCallbackRejects,
    flushCallbackCalls := [], flushErrorsLogged := 0 }

/-- `JsonTransport.flush` (transports file lines 89–102): no-op on an
empty buffer; otherwise snapshot the buffer, clear it, then invoke the
callback with the snapshot — a rejecting callback is caught and
reported, the batch stays dropped. -/
def JsonTransport.flush (t : JsonTransport) : JsonTransport :=
  if t.buffer.isEmpty then t
  else
    let entries := t.buffer
    let t1 := { t with buffer := [] }
    if t1.hasFlushCallback then
      if t1.flushCallbackRejects then
        { t1 with flushCallbackCalls := t1.flushCallbackCalls ++ [entries],
                  flushErrorsLogged := t1.flushErrorsLogged + 1 }
      else { t1 with flushCallbackCalls := t1.flushCallbackCalls ++ [entries] }
    else t1

/-- `JsonTransport.log` (transports file lines 82–87): push the entry,
flush once the buffer length reaches `maxBufferSize`. -/
def JsonTransport.log (t : JsonTransport) (e : LogEntry) : JsonTransport :=
  let t1 := { t with buffer := t.buffer ++ [e] }
  if t1.maxBufferSize ≤ t1.buffer.length then t1.flush else t1

/-- A sequence of `JsonTransport.log` calls. -/
def JsonTransport.logAll (t : JsonTransport) (es : List LogEntry) : JsonTransport :=
  es.foldl JsonTransport.log t

/-- A `LocalStorageTransport` (transports file): the storage key and
entry cap. The `localStorage` cell under `storageKey` is passed
explicitly as `Option (List LogEntry)` (`none` = key absent; the JSON
string round-trip of an entry list is abstracted as the list itself). -/
structure LocalStorageTransport where
  storageKey : String
  maxEntries : Nat

/-- `LocalStorageTransport.getLogs` (lines 135–144): parse the stored
list, empty when the key is absent. -/
def LocalStorageTransport.getLogs (t : LocalStorageTransport)
    (storage : Option (List LogEntry)) : List LogEntry :=
  storage.getD []

/-- `LocalStorageTransport.log` (lines 122–133):
`[entry, ...existing].slice(0, maxEntries)` written back. -/
def LocalStorageTransport.log (t : LocalStorageTransport)
    (storage : Option (List LogEntry)) (e : LogEntry) : Option (List LogEntry) :=
  some ((e :: t.getLogs storage).take t.maxEntries)

/-- A sequence of `LocalStorageTransport.log` calls against the cell. -/
def LocalStorageTransport.logAll (t : LocalStorageTransport)
    (storage : Option (List LogEntry)) (es : List LogEntry) :
    Option (List LogEntry) :=
  es.foldl t.log storage

/-!
Reference-semantics model of `Logger` construction and `Logger.child`
(`core.ts` lines 31–47 and 215–221). JS objects and arrays are mutable
heap references: context objects and transport arrays live in an
explicit store and loggers hold indices into it, so aliasing between a
parent and its child is represented faithfully — in particular the
constructor's `this.transports.unshift(new ConsoleTransport(...))`
mutates the array the caller passed in.
-/

/-- The heap for logger objects: context-object cells and
transport-array cells, addressed by index. -/
structure ObjStore where
  ctxs : List LogContext
  tlists : List (List Transport)

/-- The empty heap. -/
def ObjStore.empty : ObjStore := { ctxs := [], tlists := [] }

/-- Allocate a fresh context object. -/
def ObjStore.allocCtx (st : ObjStore) (c : LogContext) : ObjStore × Nat :=
  ({ st with ctxs := st.ctxs ++ [c] }, st.ctxs.length)

/-- Allocate a fresh transport array. -/
def ObjStore.allocT (st : ObjStore) (l : List Transport) : ObjStore × Nat :=
  ({ st with tlists := st.tlists ++ [l] }, st.tlists.length)

/-- Read a context cell. -/
def ObjStore.getCtx (st : ObjStore) (i : Nat) : LogContext :=
  st.ctxs.getD i []

/-- Read a transport-array cell. -/
def ObjStore.getT (st : ObjStore) (i : Nat) : List Transport :=
  st.tlists.getD i []

/-- Overwrite a context cell in place (a mutation of the object). -/
def ObjStore.setCtx (st : ObjStore) (i : Nat) (c : LogContext) : ObjStore :=
  { st with ctxs := st.ctxs.set i c }

/-- Overwrite a transport-array cell in place. -/
def ObjStore.setT (st : ObjStore) (i : Nat) (l : List Transport) : ObjStore :=
  { st with tlists := st.tlists.set i l }

/-- The `LoggerConfig` argument (`types.ts`): all fields optional;
`transports` and `context` are references into the store. -/
structure LoggerConfig where
  minLevel : Option LogLevel := none
  enableConsole : Option Bool := none
  enablePerformance : Option Bool := none
  enableErrorTracking : Option Bool := none
  transports : Option Nat := none
  context : Option Nat := none

/-- A constructed `Logger` instance: the resolved configuration plus
references to its `globalContext` object and `transports` array
(`configTransports` is the array stored inside `this.config`, which is
the same reference as `transportsRef` when the caller supplied one and
a separate fresh array otherwise). -/
structure LoggerObj where
  minLevel : LogLevel
  enableConsole : Bool
  enablePerformance : Bool
  enableErrorTracking : Bool
  configTransports : Nat
  transportsRef : Nat
  ctxRef : Nat

/-- `Logger.getDefaultMinLevel` (`core.ts` lines 49–52), over the two
environment flags. -/
def getDefaultMinLevel (envDebug envProd : Bool) : LogLevel :=
  if envDebug then .debug else if envProd then .warn else .info

/-- The `Logger` constructor (`core.ts` lines 31–47), in source
evaluation order: build `this.config` (allocating a fresh empty array
when `config?.transports` is absent), alias or allocate
`this.globalContext` (`config?.context || {}` — a supplied object is
aliased), alias or allocate `this.transports`, then — when console is
enabled — `unshift` a new `ConsoleTransport` into the (possibly
shared) transports array. -/
def Logger.mkModel (envDebug envProd : Bool) (st : ObjStore)
    (cfg : Option LoggerConfig) : ObjStore × LoggerObj :=
  let minLevel := (cfg.bind (fun c => c.minLevel)).getD (getDefaultMinLevel envDebug envProd)
  let enableConsole := (cfg.bind (fun c => c.enableConsole)).getD true
  let enablePerformance := (cfg.bind (fun c => c.enablePerformance)).getD envDebug
  let enableErrorTracking := (cfg.bind (fun c => c.enableErrorTracking)).getD true
  let (st1, configTransports) :=
    match cfg.bind (fun c => c.transports) with
    | some ref => (st, ref)
    | none => st.allocT []
  let (st2, ctxRef) :=
    match cfg.bind (fun c => c.context) with
    | some ref => (st1, ref)
    | none => st1.allocCtx []
  let (st3, transportsRef) :=
    match cfg.bind (fun c => c.transports) with
    | some ref => (st2, ref)
    | none => st2.allocT []
  let st4 :=
    if enableConsole then
      st3.setT transportsRef (mkConsoleTransport minLevel :: st3.getT transportsRef)
    else st3
  (st4,
   { minLevel := minLevel, enableConsole := enableConsole,
     enablePerformance := enablePerformance,
     enableErrorTracking := enableErrorTracking,
     configTransports := configTransports,
     transportsRef := transportsRef, ctxRef := ctxRef })

/-- `Logger.child` (`core.ts` lines 215–221):
`new Logger({...this.config, context: {...this.globalContext, ...context}, transports: this.transports})`
— the merged context is a fresh object, the transports array is passed
by reference. -/
def Logger.childModel (envDebug envProd : Bool) (st : ObjStore) (p : LoggerObj)
    (context : LogContext) : ObjStore × LoggerObj :=
  let (st1, newCtx) := st.allocCtx (jsSpread (st.getCtx p.ctxRef) context)
  Logger.mkModel envDebug envProd st1
    (some { minLevel := some p.minLevel,
            enableConsole := some p.enableConsole,
            enablePerformance := some p.enablePerformance,
            enableErrorTracking := some p.enableErrorTracking,
            transports := some p.transportsRef,
            context := some newCtx })

/-! ### Helper lemmas -/

theorem transportPasses_iff (t : Transport) (level : LogLevel) :
    transportPasses t level = true ↔
      ∀ m, t.threshold = some m → LOG_LEVELS m ≤ LOG_LEVELS level := by
  cases h : t.threshold <;> simp [transportPasses, h]

theorem runTransports_foldl_acc (level : LogLevel) (ts : List Transport)
    (r : DispatchResult) :
    ts.foldl
      (fun r t =>
        if transportPasses t level then
          if t.logFails then
            { calls := r.calls ++ [t.name], fallbacks := r.fallbacks ++ [t.name] }
          else
            { calls := r.calls ++ [t.name], fallbacks := r.fallbacks }
        else r) r =
    { calls :=
        r.calls ++ (ts.filter (fun t => transportPasses t level)).map (fun t => t.name),
      fallbacks :=
        r.fallbacks ++
          (ts.filter (fun t => transportPasses t level && t.logFails)).map
            (fun t => t.name) } := by
  induction ts generalizing r with
  | nil => simp
  | cons t ts ih =>
    simp only [List.foldl_cons, List.filter_cons]
    by_cases hp : transportPasses t level
    · by_cases hf : t.logFails
      · simp [hp, hf, ih]
      · simp [hp, hf, ih]
    · simp [hp, ih]

theorem runTransports_spec (ts : List Transport) (level : LogLevel) (entry : LogEntry) :
    runTransports ts level entry =
      { calls := (ts.filter (fun t => transportPasses t level)).map (fun t => t.name),
        fallbacks :=
          (ts.filter (fun t => transportPasses t level && t.logFails)).map
            (fun t => t.name) } := by
  simpa [runTransports] using
    runTransports_foldl_acc level ts { calls := [], fallbacks := [] }

theorem findPair_filter (a b : LogContext) (k : String) :
    (b.filter (fun q => (ctxLookup a q.1).isNone)).find? (fun p => p.1 == k) =
      if (ctxLookup a k).isNone then b.find? (fun p => p.1 == k) else none := by
  induction b with
  | nil => simp
  | cons q b ih =>
    simp only [List.filter_cons]
    by_cases hq : q.1 = k
    · cases hk : ctxLookup a k with
      | none =>
        have hd : (ctxLookup a q.1).isNone = true := by rw [hq, hk]; rfl
        simp [hd, hq, hk]
      | some w =>
        have hd : (ctxLookup a q.1).isNone = false := by rw [hq, hk]; rfl
        simp [hd, hq, hk, ih]
    · by_cases hd : (ctxLookup a q.1).isNone
      · simp [hd, hq, ih]
      · simp [hd, hq, ih]

theorem findPair_jsSpread (a b : LogContext) (k : String) :
    (jsSpread a b).find? (fun p => p.1 == k) =
      match a.find? (fun p => p.1 == k) with
      | some p => some (p.1, (ctxLookup b k).getD p.2)
      | none => b.find? (fun p => p.1 == k) := by
  have hcomp :
      ((fun (p : String × JSValue) => p.1 == k) ∘
        (fun (p : String × JSValue) =>
          match ctxLookup b p.1 with
          | some v => (p.1, v)
          | none => p)) = fun p => p.1 == k := by
    funext p
    cases hb : ctxLookup b p.1 <;> simp [Function.comp, hb]
  unfold jsSpread
  rw [List.find?_append, List.find?_map, hcomp]
  cases ha : a.find? (fun p => p.1 == k) with
  | some p =>
    have hpk : p.1 = k := by simpa using List.find?_some ha
    cases hb : ctxLookup b p.1 <;>
      simp [hb, ← hpk, Option.or]
  | none =>
    have hnone : ctxLookup a k = none := by
      unfold ctxLookup
      rw [ha]
      rfl
    simpa [hnone, Option.or] using findPair_filter a b k

theorem ctxLookup_jsSpread (a b : LogContext) (k : String) :
    ctxLookup (jsSpread a b) k =
      match ctxLookup a k with
      | some v => some ((ctxLookup b k).getD v)
      | none => ctxLookup b k := by
  unfold ctxLookup
  rw [findPair_jsSpread]
  cases ha : a.find? (fun p => p.1 == k) with
  | none => simp
  | some p => cases hb : b.find? (fun p => p.1 == k) <;> simp [ctxLookup, hb]

theorem ctxLookup_jsSpread_right (a b : LogContext) (k : String) (v : JSValue)
    (h : ctxLookup b k = some v) : ctxLookup (jsSpread a b) k = some v := by
  rw [ctxLookup_jsSpread]
  cases ha : ctxLookup a k <;> simp [h]

theorem ctxLookup_jsSpread_isSome (a b : LogContext) (k : String)
    (h : (ctxLookup a k).isSome ∨ (ctxLookup b k).isSome) :
    (ctxLookup (jsSpread a b) k).isSome := by
  rw [ctxLookup_jsSpread]
  cases ha : ctxLookup a k <;> cases hb : ctxLookup b k <;> simp_all

theorem ctxLookup_ne_nil (c : LogContext) (k : String)
    (h : (ctxLookup c k).isSome) : c.isEmpty = false := by
  cases c with
  | nil => simp [ctxLookup] at h
  | cons p c => rfl

theorem createLogEntry_ok_elim (g : LogContext) (r : RegistryState)
    (level : LogLevel) (msg : String) (ctx : Option LogContext)
    (err : Option JSValue) (perf : Option PerformanceMetrics) (tstamp : String)
    (entry : LogEntry)
    (he : Logger.createLogEntry g r level msg ctx err perf tstamp = Except.ok entry) :
    ∃ errD : Option ErrorDetails,
      entry =
        { timestamp := tstamp, level := level, message := msg,
          context :=
            if (jsSpread (jsSpread g (LoggerContext.getAllContext r)) (ctx.getD [])).isEmpty
            then none
            else some (jsSpread (jsSpread g (LoggerContext.getAllContext r)) (ctx.getD [])),
          error := errD, performance := perf,
          requestId :=
            if truthyOpt (ctxLookup (LoggerContext.getAllContext r) "requestId")
            then ctxLookup (LoggerContext.getAllContext r) "requestId" else none,
          userId :=
            if truthyOpt (ctxLookup (LoggerContext.getAllContext r) "userId")
            then ctxLookup (LoggerContext.getAllContext r) "userId" else none,
          sessionId :=
            if truthyOpt (ctxLookup (LoggerContext.getAllContext r) "sessionId")
            then ctxLookup (LoggerContext.getAllContext r) "sessionId" else none } := by
  cases err with
  | none =>
    injection he with h
    exact ⟨none, h.symm⟩
  | some e =>
    by_cases ht : jsTruthy e
    · cases hf : formatError e with
      | error u =>
        simp [Logger.createLogEntry, ht, hf, Except.map] at he
      | ok d =>
        simp only [Logger.createLogEntry, ht, hf, Except.map, if_pos] at he
        injection he with h
        exact ⟨some d, h.symm⟩
    · simp only [Logger.createLogEntry, ht, if_neg] at he
      injection he with h
      exact ⟨none, h.symm⟩

theorem jsonTransport_logAll_flush (es : List LogEntry) (t : JsonTransport)
    (hne : es ≠ []) (hlen : t.buffer.length + es.length = t.maxBufferSize)
    (hcb : t.hasFlushCallback = true) :
    t.logAll es =
      { t with
          buffer := [],
          flushCallbackCalls := t.flushCallbackCalls ++ [t.buffer ++ es],
          flushErrorsLogged :=
            t.flushErrorsLogged + (if t.flushCallbackRejects then 1 else 0) } := by
  induction es generalizing t with
  | nil => cases hne rfl
  | cons e es ih =>
    cases es with
    | nil =>
      have hlen' : t.buffer.length + 1 = t.maxBufferSize := by simpa using hlen
      have hcond : t.maxBufferSize ≤ t.buffer.length + 1 := by omega
      have hemp : ((t.buffer ++ [e]).isEmpty) = false := by simp
      by_cases hr : t.flushCallbackRejects <;>
        simp [JsonTransport.logAll, JsonTransport.log, JsonTransport.flush, hcond, hemp,
          hcb, hr]
    | cons e2 es2 =>
      have hlen' : t.buffer.length + (es2.length + 1) + 1 = t.maxBufferSize := by
        simp at hlen
        omega
      have hcond : ¬ t.maxBufferSize ≤ t.buffer.length + 1 := by omega
      have hlog : t.log e = { t with buffer := t.buffer ++ [e] } := by
        simp [JsonTransport.log, hcond]
      have hstep := ih { t with buffer := t.buffer ++ [e] } (by simp)
        (by simp; omega) hcb
      simp only [JsonTransport.logAll, List.foldl_cons] at hstep ⊢
      rw [hlog, hstep]
      simp [List.append_assoc]

theorem take_append_take {α : Type} (m : Nat) (x y : List α) :
    (x ++ y.take m).take m = (x ++ y).take m := by
  rw [List.take_append_eq_append_take, List.take_append_eq_append_take, List.take_take]
  rw [Nat.min_eq_left (Nat.sub_le m x.length)]

theorem lsLogAll_acc (t : LocalStorageTransport) (es : List LogEntry) :
    ∀ acc : List LogEntry, es ≠ [] →
      t.logAll (some acc) es = some ((es.reverse ++ acc).take t.maxEntries) := by
  induction es with
  | nil => intro acc h; cases h rfl
  | cons e es ih =>
    intro acc _
    cases es with
    | nil =>
      simp [LocalStorageTransport.logAll, LocalStorageTransport.log,
        LocalStorageTransport.getLogs]
    | cons e2 es2 =>
      have step : t.log (some acc) e = some ((e :: acc).take t.maxEntries) := rfl
      have hrec := ih ((e :: acc).take t.maxEntries) (by simp)
      simp only [LocalStorageTransport.logAll] at hrec ⊢
      rw [List.foldl_cons, step, hrec, take_append_take]
      simp [List.append_assoc]

theorem lsLogAll_getLogs (t : LocalStorageTransport) (es : List LogEntry) :
    t.getLogs (t.logAll none es) = es.reverse.take t.maxEntries := by
  cases es with
  | nil => simp [LocalStorageTransport.logAll, LocalStorageTransport.getLogs]
  | cons e es =>
    have step : t.log none e = some ([e].take t.maxEntries) := rfl
    cases es with
    | nil =>
      simp [LocalStorageTransport.logAll, step, LocalStorageTransport.getLogs]
    | cons e2 es2 =>
      have hrec := lsLogAll_acc t (e2 :: es2) ([e].take t.maxEntries) (by simp)
      simp only [LocalStorageTransport.logAll] at hrec ⊢
      rw [List.foldl_cons, step, hrec, take_append_take]
      simp [LocalStorageTransport.getLogs, List.append_assoc]

theorem getD_set_ne' {α : Type} (l : List α) (d x : α) (i j : Nat) (h : i ≠ j) :
    (l.set i x).getD j d = l.getD j d := by
  simp [List.getD_eq_getElem?_getD, List.getElem?_set_ne h]

theorem getCtx_setT (s : ObjStore) (i : Nat) (l : List Transport) (j : Nat) :
    (s.setT i l).getCtx j = s.getCtx j := rfl

theorem getCtx_alloc_old (st : ObjStore) (x : LogContext) (i : Nat)
    (h : i < st.ctxs.length) :
    ObjStore.getCtx { st with ctxs := st.ctxs ++ [x] } i = st.getCtx i :=
  List.getD_append _ _ _ _ h

theorem getCtx_alloc_new (st : ObjStore) (x : LogContext) :
    ObjStore.getCtx { st with ctxs := st.ctxs ++ [x] } st.ctxs.length = x := by
  unfold ObjStore.getCtx
  rw [List.getD_append_right _ _ _ _ (Nat.le_refl _)]
  simp

theorem getCtx_setCtx_ne (s : ObjStore) (i j : Nat) (cc : LogContext) (h : i ≠ j) :
    (s.setCtx i cc).getCtx j = s.getCtx j :=
  getD_set_ne' _ _ _ _ _ h

theorem getT_setT_self (s : ObjStore) (i : Nat) (l : List Transport)
    (h : i < s.tlists.length) :
    (s.setT i l).getT i = l := by
  unfold ObjStore.setT ObjStore.getT
  simp [List.getD_eq_getElem?_getD, List.getElem?_set_self h]

/-- Normal form of `Logger.childModel`: one fresh context cell holding
the merged context, the parent's transport array shared, and — when
console is enabled — a new `ConsoleTransport` unshifted into that
shared array. -/
theorem childModel_eq (eb ep : Bool) (st : ObjStore) (p : LoggerObj) (c : LogContext) :
    Logger.childModel eb ep st p c =
      (if p.enableConsole then
          ObjStore.setT { st with ctxs := st.ctxs ++ [jsSpread (st.getCtx p.ctxRef) c] }
            p.transportsRef
            (mkConsoleTransport p.minLevel ::
              ObjStore.getT { st with ctxs := st.ctxs ++ [jsSpread (st.getCtx p.ctxRef) c] }
                p.transportsRef)
        else { st with ctxs := st.ctxs ++ [jsSpread (st.getCtx p.ctxRef) c] },
       { minLevel := p.minLevel, enableConsole := p.enableConsole,
         enablePerformance := p.enablePerformance,
         enableErrorTracking := p.enableErrorTracking,
         configTransports := p.transportsRef, transportsRef := p.transportsRef,
         ctxRef := st.ctxs.length }) := rfl

/-! ### Claim theorems -/

/-- C1: an entry logged at level `L` through the logger's
`debug`/`info`/`warn`/`error` methods reaches a given transport if and
only if `rank L ≥ rank M` for the logger's configured `minLevel` `M`
and, when the transport defines `shouldLog`, `rank L` also passes that
transport's own threshold; quantified over all levels, minimum levels
and thresholds (in particular all 16 level-by-threshold combinations). -/
theorem C1_level_threshold_filter (minLevel level : LogLevel) (g : LogContext)
    (r : RegistryState) (t : Transport) (msg : String) (ctx : Option LogContext)
    (perf : Option PerformanceMetrics) (tstamp : String) :
    Reaches minLevel g r t level msg ctx perf tstamp ↔
      (LOG_LEVELS minLevel ≤ LOG_LEVELS level ∧
        ∀ m, t.threshold = some m → LOG_LEVELS m ≤ LOG_LEVELS level) := by
  unfold Reaches Logger.logModel
  by_cases h1 : LOG_LEVELS minLevel ≤ LOG_LEVELS level
  · obtain ⟨e, he⟩ :
        ∃ e, Logger.createLogEntry g r level msg ctx none perf tstamp = Except.ok e :=
      ⟨_, rfl⟩
    by_cases h2 : transportPasses t level
    · simp [h1, h2, he, runTransports_spec]
      exact (transportPasses_iff t level).mp h2
    · rw [← transportPasses_iff]
      simp [h1, h2, he, runTransports_spec]
  · simp [h1]

/-- C5: for every transport list and every entry passing the level
filter, a throwing transport `log` is caught inside the logger (never
propagated — the dispatch returns `.ok`), it is reported through the
fallback channel, and every transport whose threshold passes — later
failing ones included — still receives the entry, independently of
which transports fail. -/
theorem C5_transport_failure_isolation (minLevel level : LogLevel) (g : LogContext)
    (r : RegistryState) (ts : List Transport) (msg : String)
    (ctx : Option LogContext) (err : Option JSValue)
    (perf : Option PerformanceMetrics) (tstamp : String) (entry : LogEntry)
    (he : Logger.createLogEntry g r level msg ctx err perf tstamp = Except.ok entry)
    (hl : LOG_LEVELS minLevel ≤ LOG_LEVELS level) :
    Logger.logModel minLevel g r ts level msg ctx err perf tstamp =
      Except.ok
        { calls := (ts.filter (fun t => transportPasses t level)).map (fun t => t.name),
          fallbacks :=
            (ts.filter (fun t => transportPasses t level && t.logFails)).map
              (fun t => t.name) } := by
  simp [Logger.logModel, hl, he, runTransports_spec]

/-- C5 witness: a failing transport followed by a healthy one — both
receive the entry, the failure is reported via the fallback, nothing
propagates. -/
theorem C5_transport_failure_isolation_witness :
    Logger.logModel .info [] { context := [], requestId := none, sessionId := none }
      [{ name := "bad", threshold := none, logFails := true },
       { name := "good", threshold := none, logFails := false }]
      .info "m" none none none "T" =
      Except.ok { calls := ["bad", "good"], fallbacks := ["bad"] } :=
  C5_transport_failure_isolation .info .info []
    { context := [], requestId := none, sessionId := none }
    [{ name := "bad", threshold := none, logFails := true },
     { name := "good", threshold := none, logFails := false }]
    "m" none none none "T" _ rfl (by decide)

/-- C4: `Logger.track` and `Logger.trackAsync` re-raise exactly the
error value the wrapped operation failed with, after logging exactly
one error-level entry that carries the elapsed metrics (spread into the
context) and the error; on success they return exactly the operation's
result. -/
theorem C4_track_rethrow {α : Type} (op : String) (e : JSValue) (a : α)
    (ctx : Option LogContext) (enP : Bool) (t0 t1 : ℚ) (mem : Option ℚ)
    (dnow : ℚ) :
    (@Logger.trackModel α op (.error e) ctx enP t0 t1 mem dnow).1 = Except.error e ∧
    (@Logger.trackModel α op (.error e) ctx enP t0 t1 mem dnow).2.filter
        (fun ev => ev.level = .error) =
      [{ level := .error, message := "Failed: " ++ op, error := some e,
         context := some (jsSpread (ctx.getD [])
           (metricsToContext
             (perfEnd { startTime := some t0, marks := [] } t1 mem dnow))) }] ∧
    (Logger.trackModel op (.ok a) ctx enP t0 t1 mem dnow).1 = Except.ok a ∧
    (@Logger.trackAsyncModel α op (.error e) ctx enP t0 t1 mem dnow).1 = Except.error e ∧
    (@Logger.trackAsyncModel α op (.error e) ctx enP t0 t1 mem dnow).2.filter
        (fun ev => ev.level = .error) =
      [{ level := .error, message := "Failed: " ++ op, error := some e,
         context := some (jsSpread (ctx.getD [])
           (metricsToContext
             (perfEnd { startTime := some t0, marks := [] } t1 mem dnow))) }] ∧
    (Logger.trackAsyncModel op (.ok a) ctx enP t0 t1 mem dnow).1 = Except.ok a :=
  ⟨rfl, rfl, rfl, rfl, rfl, rfl⟩

/-- C3 counterexample: with the default configuration (console
enabled), creating a child logger mutates the parent's transport list —
the child's constructor `unshift`s a new `ConsoleTransport` into the
array it shares by reference with the parent, so the parent's transport
list grows from `[console]` to `[console, console]`, contradicting the
claim that `P.child(c)` leaves `P`'s transport list unchanged. -/
theorem C3_child_isolation_counterexample :
    (Logger.mkModel false false ObjStore.empty none).1.getT
        (Logger.mkModel false false ObjStore.empty none).2.transportsRef =
      [mkConsoleTransport .info] ∧
    (Logger.childModel false false (Logger.mkModel false false ObjStore.empty none).1
        (Logger.mkModel false false ObjStore.empty none).2 []).1.getT
        (Logger.mkModel false false ObjStore.empty none).2.transportsRef =
      [mkConsoleTransport .info, mkConsoleTransport .info] :=
  ⟨rfl, rfl⟩

/-- C3 (amended): `P.child(c)` returns a new logger sharing `P`'s
configuration and transport array with `c` merged on top of `P`'s
`globalContext` into a fresh context object; `P`'s `globalContext` is
unchanged, and mutating the child's context never alters the parent's
(nor vice versa). However the transport array is shared by reference,
and when `enableConsole` is true the child's construction prepends a
new `ConsoleTransport` to it, so `P`'s transport list does change;
only with `enableConsole` false is it left unchanged. -/
theorem C3_child_isolation_amended (eb ep : Bool) (st : ObjStore) (p : LoggerObj)
    (c : LogContext) (hctx : p.ctxRef < st.ctxs.length)
    (htr : p.transportsRef < st.tlists.length) :
    ((Logger.childModel eb ep st p c).2.ctxRef ≠ p.ctxRef) ∧
    ((Logger.childModel eb ep st p c).1.getCtx p.ctxRef = st.getCtx p.ctxRef) ∧
    ((Logger.childModel eb ep st p c).1.getCtx (Logger.childModel eb ep st p c).2.ctxRef =
      jsSpread (st.getCtx p.ctxRef) c) ∧
    (∀ f : LogContext,
      (((Logger.childModel eb ep st p c).1.setCtx (Logger.childModel eb ep st p c).2.ctxRef
          f).getCtx p.ctxRef =
        (Logger.childModel eb ep st p c).1.getCtx p.ctxRef) ∧
      (((Logger.childModel eb ep st p c).1.setCtx p.ctxRef f).getCtx
          (Logger.childModel eb ep st p c).2.ctxRef =
        (Logger.childModel eb ep st p c).1.getCtx
          (Logger.childModel eb ep st p c).2.ctxRef)) ∧
    ((Logger.childModel eb ep st p c).2.transportsRef = p.transportsRef) ∧
    (p.enableConsole = true →
      (Logger.childModel eb ep st p c).1.getT p.transportsRef =
        mkConsoleTransport p.minLevel :: st.getT p.transportsRef) ∧
    (p.enableConsole = false →
      (Logger.childModel eb ep st p c).1.getT p.transportsRef = st.getT p.transportsRef) := by
  rw [childModel_eq]
  dsimp only
  have hne : st.ctxs.length ≠ p.ctxRef := Nat.ne_of_gt hctx
  have hswap : ∀ (s : ObjStore) (i : Nat) (l : List Transport) (j : Nat) (cc : LogContext),
      ((s.setT i l).setCtx j cc) = (s.setCtx j cc).setT i l := fun _ _ _ _ _ => rfl
  refine ⟨hne, ?_, ?_, fun f => ⟨?_, ?_⟩, rfl, fun hec => ?_, fun hec => ?_⟩
  · by_cases hec : p.enableConsole = true
    · rw [if_pos hec, getCtx_setT]
      exact getCtx_alloc_old st _ _ hctx
    · rw [if_neg hec]
      exact getCtx_alloc_old st _ _ hctx
  · by_cases hec : p.enableConsole = true
    · rw [if_pos hec, getCtx_setT]
      exact getCtx_alloc_new st _
    · rw [if_neg hec]
      exact getCtx_alloc_new st _
  · by_cases hec : p.enableConsole = true
    · rw [if_pos hec, hswap, getCtx_setT, getCtx_setT, getCtx_setCtx_ne _ _ _ _ hne]
    · rw [if_neg hec, getCtx_setCtx_ne _ _ _ _ hne]
  · by_cases hec : p.enableConsole = true
    · rw [if_pos hec, hswap, getCtx_setT, getCtx_setT,
        getCtx_setCtx_ne _ _ _ _ (Ne.symm hne)]
    · rw [if_neg hec, getCtx_setCtx_ne _ _ _ _ (Ne.symm hne)]
  · rw [if_pos hec, getT_setT_self _ _ _ (by simpa using htr)]
    rfl
  · rw [if_neg (by simp [hec])]
    rfl

/-- C3 witness: the amended behavior at a concrete parent (default
configuration, console enabled): parent context unchanged by child
creation, a child-context mutation leaves the parent's context intact,
and the shared transport array gains one console transport. -/
theorem C3_child_isolation_amended_witness :
    ((Logger.childModel false false (Logger.mkModel false false ObjStore.empty none).1
        (Logger.mkModel false false ObjStore.empty none).2 [("k", JSValue.num 1)]).1.getCtx
        (Logger.mkModel false false ObjStore.empty none).2.ctxRef =
      (Logger.mkModel false false ObjStore.empty none).1.getCtx
        (Logger.mkModel false false ObjStore.empty none).2.ctxRef) ∧
    (((Logger.childModel false false (Logger.mkModel false false ObjStore.empty none).1
          (Logger.mkModel false false ObjStore.empty none).2 [("k", JSValue.num 1)]).1.setCtx
        (Logger.childModel false false (Logger.mkModel false false ObjStore.empty none).1
          (Logger.mkModel false false ObjStore.empty none).2
          [("k", JSValue.num 1)]).2.ctxRef
        [("x", JSValue.num 9)]).getCtx
        (Logger.mkModel false false ObjStore.empty none).2.ctxRef =
      (Logger.childModel false false (Logger.mkModel false false ObjStore.empty none).1
          (Logger.mkModel false false ObjStore.empty none).2 [("k", JSValue.num 1)]).1.getCtx
        (Logger.mkModel false false ObjStore.empty none).2.ctxRef) ∧
    ((Logger.childModel false false (Logger.mkModel false false ObjStore.empty none).1
        (Logger.mkModel false false ObjStore.empty none).2 [("k", JSValue.num 1)]).1.getT
        (Logger.mkModel false false ObjStore.empty none).2.transportsRef =
      mkConsoleTransport .info ::
        (Logger.mkModel false false ObjStore.empty none).1.getT
          (Logger.mkModel false false ObjStore.empty none).2.transportsRef) :=
  ⟨(C3_child_isolation_amended false false (Logger.mkModel false false ObjStore.empty none).1
      (Logger.mkModel false false ObjStore.empty none).2 [("k", JSValue.num 1)]
      (by decide) (by decide)).2.1,
   ((C3_child_isolation_amended false false (Logger.mkModel false false ObjStore.empty none).1
      (Logger.mkModel false false ObjStore.empty none).2 [("k", JSValue.num 1)]
      (by decide) (by decide)).2.2.2.1 [("x", JSValue.num 9)]).1,
   (C3_child_isolation_amended false false (Logger.mkModel false false ObjStore.empty none).1
      (Logger.mkModel false false ObjStore.empty none).2 [("k", JSValue.num 1)]
      (by decide) (by decide)).2.2.2.2.2.1 rfl⟩

/-- C7: starting from an empty buffer with a configured flush callback,
after exactly `maxBufferSize` log calls (no timer in the model) a flush
is triggered automatically: the buffer returns to length 0 and the
callback is invoked exactly once with the `maxBufferSize` entries in
call order; when the callback rejects, the failure is caught (one
console report, nothing propagates — the function is total) and the
buffer is still empty afterwards, the batch lost. -/
theorem C7_buffered_flush (fi mbs : Option Nat) (rejects : Bool) (es : List LogEntry)
    (hlen : es.length = (mkJsonTransport fi mbs true rejects).maxBufferSize) :
    (mkJsonTransport fi mbs true rejects).logAll es =
      { mkJsonTransport fi mbs true rejects with
          buffer := [], flushCallbackCalls := [es],
          flushErrorsLogged := if rejects then 1 else 0 } := by
  have hpos : 0 < (mkJsonTransport fi mbs true rejects).maxBufferSize := by
    cases mbs with
    | none => simp [mkJsonTransport, numOr]
    | some n =>
      by_cases h : n = 0 <;> simp [mkJsonTransport, numOr, h]
      omega
  have hne : es ≠ [] := by
    intro h
    rw [h] at hlen
    simp at hlen
    omega
  have h := jsonTransport_logAll_flush es (mkJsonTransport fi mbs true rejects) hne
    (by simpa [mkJsonTransport] using hlen) rfl
  simpa [mkJsonTransport] using h

/-- C7 witness: `maxBufferSize = 2`, a rejecting callback, two log
calls — one callback invocation with both entries in order, buffer
empty, failure swallowed and reported. -/
theorem C7_buffered_flush_witness :
    (mkJsonTransport none (some 2) true true).logAll
      [{ timestamp := "T1", level := .info, message := "a" },
       { timestamp := "T2", level := .warn, message := "b" }] =
      { buffer := [], flushInterval := 5000, maxBufferSize := 2,
        hasFlushCallback := true, flushCallbackRejects := true,
        flushCallbackCalls :=
          [[{ timestamp := "T1", level := .info, message := "a" },
            { timestamp := "T2", level := .warn, message := "b" }]],
        flushErrorsLogged := 1 } :=
  C7_buffered_flush none (some 2) true
    [{ timestamp := "T1", level := .info, message := "a" },
     { timestamp := "T2", level := .warn, message := "b" }] rfl

/-- C8: from an empty store, after inserting `maxEntries + 5` entries
the stored list is exactly the `maxEntries` most recent entries,
most-recent-first, the 5 oldest silently dropped; and after any
sequence of log calls the stored list never exceeds `maxEntries`. -/
theorem C8_localstorage_cap (key : String) (m : Nat) (es : List LogEntry)
    (hlen : es.length = m + 5) :
    LocalStorageTransport.getLogs { storageKey := key, maxEntries := m }
        (LocalStorageTransport.logAll { storageKey := key, maxEntries := m } none es) =
      (es.drop 5).reverse ∧
    (LocalStorageTransport.getLogs { storageKey := key, maxEntries := m }
        (LocalStorageTransport.logAll { storageKey := key, maxEntries := m } none es)).length =
      m ∧
    ∀ es' : List LogEntry,
      (LocalStorageTransport.getLogs { storageKey := key, maxEntries := m }
        (LocalStorageTransport.logAll { storageKey := key, maxEntries := m } none
          es')).length ≤ m := by
  have h1 := lsLogAll_getLogs { storageKey := key, maxEntries := m } es
  refine ⟨?_, ?_, fun es' => ?_⟩
  · rw [h1, List.take_reverse]
    have h5 : es.length - m = 5 := by omega
    rw [h5]
  · rw [h1]
    simp [hlen]
  · rw [lsLogAll_getLogs]
    exact List.length_take_le m _

/-- C8 witness: `maxEntries = 1`, six inserts — only the newest entry
remains, plus the cap instantiated on a two-insert sequence. -/
theorem C8_localstorage_cap_witness :
    LocalStorageTransport.getLogs { storageKey := "app_logs", maxEntries := 1 }
        (LocalStorageTransport.logAll { storageKey := "app_logs", maxEntries := 1 } none
          [{ timestamp := "T1", level := .info, message := "1" },
           { timestamp := "T2", level := .info, message := "2" },
           { timestamp := "T3", level := .info, message := "3" },
           { timestamp := "T4", level := .info, message := "4" },
           { timestamp := "T5", level := .info, message := "5" },
           { timestamp := "T6", level := .info, message := "6" }]) =
      [{ timestamp := "T6", level := .info, message := "6" }] ∧
    (LocalStorageTransport.getLogs { storageKey := "app_logs", maxEntries := 1 }
        (LocalStorageTransport.logAll { storageKey := "app_logs", maxEntries := 1 } none
          [{ timestamp := "T1", level := .info, message := "1" },
           { timestamp := "T2", level := .info, message := "2" }])).length ≤ 1 :=
  ⟨((C8_localstorage_cap "app_logs" 1
      [{ timestamp := "T1", level := .info, message := "1" },
       { timestamp := "T2", level := .info, message := "2" },
       { timestamp := "T3", level := .info, message := "3" },
       { timestamp := "T4", level := .info, message := "4" },
       { timestamp := "T5", level := .info, message := "5" },
       { timestamp := "T6", level := .info, message := "6" }] rfl).1),
   ((C8_localstorage_cap "app_logs" 1
      [{ timestamp := "T1", level := .info, message := "1" },
       { timestamp := "T2", level := .info, message := "2" },
       { timestamp := "T3", level := .info, message := "3" },
       { timestamp := "T4", level := .info, message := "4" },
       { timestamp := "T5", level := .info, message := "5" },
       { timestamp := "T6", level := .info, message := "6" }] rfl).2.2
      [{ timestamp := "T1", level := .info, message := "1" },
       { timestamp := "T2", level := .info, message := "2" }])⟩

/-- C9 counterexample: `measure` called with the empty-string start
mark — a mark that was never recorded — does not raise: JS string
truthiness makes `startMark ? … : …` treat `""` as absent, so the
tracker's own `startTime` is used instead and the call succeeds. -/
theorem C9_perf_misuse_counterexample :
    perfMeasure { startTime := some 5, marks := [] } 10 (some "") none = Except.ok 5 ∧
    marksGet { startTime := some 5, marks := [] } "" = none := by
  refine ⟨?_, rfl⟩
  show Except.ok (round2 (10 - 5)) = Except.ok 5
  norm_num [round2]

/-- C9 (amended): `end()` without a prior `start()` returns duration
`0`; `measure` with a non-empty start mark that was never recorded
raises an error, and so does `measure` with an absent (or empty-string,
treated as absent by JS truthiness) start mark when `start()` was never
called — the empty-string start mark with a recorded start time is the
one carve-out where no error is raised. -/
theorem C9_perf_misuse_amended :
    (∀ (marks : List (String × ℚ)) (now : ℚ) (mem : Option ℚ) (dnow : ℚ),
        (perfEnd { startTime := none, marks := marks } now mem dnow).duration = some 0) ∧
    (∀ (st : PerfState) (now : ℚ) (nm : String) (em : Option String),
        nm ≠ "" → marksGet st nm = none →
        perfMeasure st now (some nm) em =
          Except.error ("Start mark \"" ++ nm ++ "\" not found")) ∧
    (∀ (marks : List (String × ℚ)) (now : ℚ) (em : Option String),
        perfMeasure { startTime := none, marks := marks } now none em =
          Except.error "Start mark \"undefined\" not found") ∧
    (∀ (marks : List (String × ℚ)) (now : ℚ) (em : Option String),
        perfMeasure { startTime := none, marks := marks } now (some "") em =
          Except.error "Start mark \"\" not found") := by
  refine ⟨fun marks now mem dnow => ?_, fun st now nm em hnm hmg => ?_,
    fun marks now em => rfl, fun marks now em => rfl⟩
  · show some (round2 0) = some 0
    norm_num [round2]
  · simp [perfMeasure, truthyStr, hnm, hmg]

/-- C9 witness: `end()` with no start, `measure` with a missing
non-empty mark, and `measure` with no mark and no start. -/
theorem C9_perf_misuse_amended_witness :
    (perfEnd { startTime := none, marks := [] } 7 none 3).duration = some 0 ∧
    perfMeasure { startTime := some 5, marks := [] } 10 (some "missing") none =
      Except.error "Start mark \"missing\" not found" ∧
    perfMeasure { startTime := none, marks := [] } 10 none none =
      Except.error "Start mark \"undefined\" not found" :=
  ⟨C9_perf_misuse_amended.1 [] 7 none 3,
   C9_perf_misuse_amended.2.1 { startTime := some 5, marks := [] } 10 "missing" none
     (by decide) rfl,
   C9_perf_misuse_amended.2.2.1 [] 10 none⟩

/-- C10: every log entry a logger builds (and hence dispatches) carries
the registry's session id — `entry.sessionId` equals the session id
generated at registry creation, and `entry.context` is present and
contains the key `sessionId` — even when the caller passes no context,
because `getAllContext()` unconditionally includes the session id. -/
theorem C10_session_id_always_present (g : LogContext) (r : RegistryState)
    (level : LogLevel) (msg : String) (ctx : Option LogContext)
    (err : Option JSValue) (perf : Option PerformanceMetrics)
    (tstamp sid : String) (entry : LogEntry)
    (hsid : r.sessionId = some sid) (hne : sid ≠ "")
    (he : Logger.createLogEntry g r level msg ctx err perf tstamp = Except.ok entry) :
    entry.sessionId = some (.str sid) ∧
    ∃ m, entry.context = some m ∧ (ctxLookup m "sessionId").isSome := by
  have hlook : ctxLookup (LoggerContext.getAllContext r) "sessionId" = some (.str sid) := by
    unfold LoggerContext.getAllContext
    rw [hsid]
    have htr : truthyStr (some sid) = true := by simp [truthyStr, hne]
    rw [if_pos htr]
    exact ctxLookup_jsSpread_right _ _ _ _ (by simp [ctxLookup, List.find?])
  obtain ⟨errD, hentry⟩ := createLogEntry_ok_elim g r level msg ctx err perf tstamp entry he
  subst hentry
  have hmerged :
      (ctxLookup (jsSpread (jsSpread g (LoggerContext.getAllContext r)) (ctx.getD []))
        "sessionId").isSome := by
    apply ctxLookup_jsSpread_isSome
    left
    rw [ctxLookup_jsSpread]
    cases hga : ctxLookup g "sessionId" <;> simp [hlook]
  have hnonempty :=
    ctxLookup_ne_nil (jsSpread (jsSpread g (LoggerContext.getAllContext r)) (ctx.getD []))
      "sessionId" hmerged
  constructor
  · simp [hlook, truthyOpt, jsTruthy, hne]
  · exact ⟨_, by simp [hnonempty], hmerged⟩

/-- C2 counterexample: `formatError` is not total on arbitrary values —
for the non-Error object `{a: 1n}` (a BigInt-valued property) the
unguarded `JSON.stringify` call inside `formatError` throws a
`TypeError`, which propagates to the caller instead of producing an
`ErrorDetails` record. -/
theorem C2_error_normalization_counterexample :
    formatError (.obj [("a", .bigint 1)]) = Except.error () := rfl

/-- C2 (amended): error normalization is shape-preserving wherever
`JSON.stringify` succeeds — a native `Error` keeps its name, message,
stack and cause unchanged; a non-Error object whose serialization
succeeds yields name `"Error"` with the JSON string as message; a
non-Error object whose serialization throws (e.g. BigInt properties)
makes `formatError` itself throw; and every other value yields name
`"Error"` with its string coercion as message. -/
theorem C2_error_normalization_amended :
    (∀ n m st c, formatError (.err n m st c) =
        Except.ok { name := n, message := m, stack := st, cause := c }) ∧
    (∀ fs s, jsonStringify (.obj fs) = Except.ok s →
        formatError (.obj fs) = Except.ok { name := "Error", message := s }) ∧
    (∀ fs, jsonStringify (.obj fs) = Except.error () →
        formatError (.obj fs) = Except.error ()) ∧
    (∀ v, stringCoerced v = true →
        formatError v = Except.ok { name := "Error", message := jsToString v }) := by
  refine ⟨fun n m st c => rfl, fun fs s h => ?_, fun fs h => ?_, fun v hv => ?_⟩
  · simp [formatError, h, Bind.bind, Except.bind]
  · simp [formatError, h, Bind.bind, Except.bind]
  · cases v <;> first
      | rfl
      | (exfalso; simp [stringCoerced] at hv)

/-- C2 witness: the spec's three examples — a native `TypeError` is
preserved losslessly, `{foo:1}` becomes `name "Error"` with message
`'\x7b"foo":1\x7d'`, and the string `"boom"` becomes `name "Error"`,
message `"boom"`. -/
theorem C2_error_normalization_amended_witness :
    formatError (.err "TypeError" "x" (some "stacktrace") none) =
      Except.ok
        { name := "TypeError", message := "x", stack := some "stacktrace", cause := none } ∧
    formatError (.obj [("foo", .num 1)]) =
      Except.ok { name := "Error", message := "\x7b\"foo\":1\x7d" } ∧
    formatError (.str "boom") = Except.ok { name := "Error", message := "boom" } :=
  ⟨C2_error_normalization_amended.1 "TypeError" "x" (some "stacktrace") none,
   C2_error_normalization_amended.2.1 [("foo", .num 1)] "\x7b\"foo\":1\x7d" rfl,
   C2_error_normalization_amended.2.2.2 (.str "boom") rfl⟩

/-- C6 counterexample: with global context `{a:1}`, registry ambient
context `{b:2}` and call-site context `{a:3,c:4}`, the produced entry's
context is `{a:3,b:2,sessionId:…,c:4}`, not exactly `{a:3,b:2,c:4}` as
the claim states: the registry's session id is always merged in, so the
two maps differ at the key `sessionId`. -/
theorem C6_context_precedence_counterexample :
    (Logger.createLogEntry [("a", JSValue.num 1)]
        { context := [("b", JSValue.num 2)], requestId := none,
          sessionId := some "abcdefghij" }
        .info "m" (some [("a", JSValue.num 3), ("c", JSValue.num 4)]) none none "T").map
      (fun e => e.context) =
      Except.ok (some [("a", JSValue.num 3), ("b", JSValue.num 2),
        ("sessionId", JSValue.str "abcdefghij"), ("c", JSValue.num 4)]) ∧
    ctxLookup [("a", JSValue.num 3), ("b", JSValue.num 2),
        ("sessionId", JSValue.str "abcdefghij"), ("c", JSValue.num 4)] "sessionId" =
      some (JSValue.str "abcdefghij") ∧
    ctxLookup [("a", JSValue.num 3), ("b", JSValue.num 2), ("c", JSValue.num 4)]
      "sessionId" = none :=
  ⟨rfl, rfl, rfl⟩

/-- C6 (amended): with global context `{a:1}`, registry ambient context
`{b:2}` and call-site context `{a:3,c:4}`, the entry's merged context is
`{a:3,b:2,sessionId:sid,c:4}` — global first, then registry ambient
(which always appends the session id), then call-site, later keys
winning on conflict; it equals the claim's `{a:3,b:2,c:4}` only after
also accounting for the ever-present `sessionId` entry. -/
theorem C6_context_precedence_amended (sid msg tstamp : String) (hne : sid ≠ "") :
    (Logger.createLogEntry [("a", JSValue.num 1)]
        { context := [("b", JSValue.num 2)], requestId := none, sessionId := some sid }
        .info msg (some [("a", JSValue.num 3), ("c", JSValue.num 4)]) none none tstamp).map
      (fun e => e.context) =
      Except.ok (some [("a", JSValue.num 3), ("b", JSValue.num 2),
        ("sessionId", JSValue.str sid), ("c", JSValue.num 4)]) := by
  have htr : truthyStr (some sid) = true := by simp [truthyStr, hne]
  have hcd : LoggerContext.getAllContext
      { context := [("b", JSValue.num 2)], requestId := none, sessionId := some sid } =
      [("b", JSValue.num 2), ("sessionId", JSValue.str sid)] := by
    unfold LoggerContext.getAllContext
    simp only [htr, if_true]
    rfl
  simp only [Logger.createLogEntry, hcd]
  rfl

/-- C6 witness: the amended merged-context computation at a concrete
session id. -/
theorem C6_context_precedence_amended_witness :
    (Logger.createLogEntry [("a", JSValue.num 1)]
        { context := [("b", JSValue.num 2)], requestId := none,
          sessionId := some "0123456789" }
        .info "msg" (some [("a", JSValue.num 3), ("c", JSValue.num 4)]) none none
        "2026-01-01").map (fun e => e.context) =
      Except.ok (some [("a", JSValue.num 3), ("b", JSValue.num 2),
        ("sessionId", JSValue.str "0123456789"), ("c", JSValue.num 4)]) :=
  C6_context_precedence_amended "0123456789" "msg" "2026-01-01" (by decide)

/-- C10 witness: a freshly created registry, a logger with empty global
context, a plain `info` call with no call-site context. -/
theorem C10_session_id_always_present_witness :
    ∃ entry,
      Logger.createLogEntry [] (LoggerContext.mkRegistry "abcdefghij") .info "m" none none
        none "T" = Except.ok entry ∧
      entry.sessionId = some (.str "abcdefghij") ∧
      ∃ m, entry.context = some m ∧ (ctxLookup m "sessionId").isSome :=
  ⟨_, rfl,
    C10_session_id_always_present [] (LoggerContext.mkRegistry "abcdefghij") .info "m"
      none none none "T" "abcdefghij" _ rfl (by decide) rfl⟩
